import Mathlib

/-
  Verification development for the Library_Archi repository.

  Shallow embedding of the JavaScript sources:
  - src/models/book.js            (class Book: the per-item inventory counter)
  - src/models/borrowing.js       (class Borrowing: the borrow-request record)
  - src/services/bookService.js   (document store access for books)
  - src/services/borrowingService.js
  - src/services/watchlistService.js (src/unnamed/part_000)
  - src/patterns/observer/notificationSubject.js and the concrete observers
  - src/facades/libraryFacade.js  (requestBook / reviewRequest / returnBook)
  - src/jobs/dueDateCheckerJob.js (checkDueDates)

  JavaScript `throw new Error(message)` sites are modelled by the structured
  error type LibError below; each constructor's doc comment names the source
  message it stands for.  Asynchronous storage calls are modelled by explicit
  state passing over LibState; a function returns the (possibly partially
  updated) state together with an Except result, where an error corresponds
  to the JS exception propagating to the caller.  Timestamps are Int
  milliseconds, `Date.now()` is an explicit `now` parameter.
-/

namespace LibraryArchi

/-- Structured stand-ins for the `throw new Error(...)` sites of the source.
Each constructor corresponds to one throw site; the French message text is
abbreviated in the doc comments. -/
inductive LibError where
  /-- libraryFacade.requestBook: "Utilisateur ... non trouve" -/
  | userNotFound
  /-- libraryFacade: "Livre ... non trouve" -/
  | bookNotFound
  /-- libraryFacade.requestBook: "Le livre ... n est pas disponible actuellement" -/
  | bookUnavailable
  /-- libraryFacade.requestBook: "Vous avez deja une demande en cours pour ce livre" -/
  | duplicatePending
  /-- libraryFacade.reviewRequest: "Acces refuse: seuls les bibliothecaires et administrateurs ..." -/
  | accessDenied
  /-- libraryFacade: "Demande ... non trouvee" -/
  | requestNotFound
  /-- libraryFacade.reviewRequest: "Cette demande a deja ete traitee (statut: ...)" -/
  | alreadyProcessed
  /-- libraryFacade.reviewRequest: "Le livre ... vient d etre emprunte par quelqu un d autre" -/
  | bookJustBorrowed
  /-- libraryFacade.reviewRequest: "Action invalide: ..." -/
  | invalidAction
  /-- libraryFacade.returnBook: "Ce livre ne peut etre retourne (statut: ...)" -/
  | notReturnable
  /-- Book.markAsBorrowed: "Aucun exemplaire de ... n est disponible" -/
  | noCopyAvailable
  /-- Book.markAsAvailable: "Impossible de retourner: tous les exemplaires ... sont deja disponibles" -/
  | allCopiesAvailable
deriving Repr, DecidableEq

deriving instance DecidableEq for Except

/-- src/models/book.js, class Book.  `isAvailable` is the deprecated flag the
constructor derives from `availableQuantity > 0`. -/
structure Book where
  id : String
  title : String
  author : String
  genre : String
  coverImageUrl : String
  totalQuantity : Int
  availableQuantity : Int
  isAvailable : Bool
deriving Repr, DecidableEq

/-- src/models/book.js lines 18-44, the Book constructor:
`availableQuantity !== null ? availableQuantity : totalQuantity`, and
`isAvailable = availableQuantity > 0`. -/
def Book.new (id title author genre coverImageUrl : String)
    (totalQuantity : Int) (availableQuantity : Option Int) : Book :=
  let avail := availableQuantity.getD totalQuantity
  { id := id, title := title, author := author, genre := genre,
    coverImageUrl := coverImageUrl, totalQuantity := totalQuantity,
    availableQuantity := avail, isAvailable := decide (0 < avail) }

/-- src/models/book.js lines 50-56, `markAsBorrowed()`:
throws when `availableQuantity <= 0`, otherwise decrements the counter and
recomputes `isAvailable`.  The second component of the success value is the
JavaScript return value of the method: the method body has no `return`
statement, so the call evaluates to `undefined`, modelled as `none`. -/
def Book.markAsBorrowed (b : Book) : Except LibError (Book × Option Int) :=
  if b.availableQuantity ≤ 0 then
    .error .noCopyAvailable
  else
    let b1 : Book := { b with availableQuantity := b.availableQuantity - 1 }
    .ok ({ b1 with isAvailable := decide (0 < b1.availableQuantity) }, none)

/-- src/models/book.js lines 62-68, `markAsAvailable()`:
throws when `availableQuantity >= totalQuantity`, otherwise increments the
counter and recomputes `isAvailable`.  The second component is the JavaScript
return value: the method has no `return` statement, so it is `undefined`
(`none`); in particular no restock indicator is returned. -/
def Book.markAsAvailable (b : Book) : Except LibError (Book × Option Bool) :=
  if b.availableQuantity ≥ b.totalQuantity then
    .error .allCopiesAvailable
  else
    let b1 : Book := { b with availableQuantity := b.availableQuantity + 1 }
    .ok ({ b1 with isAvailable := decide (0 < b1.availableQuantity) }, none)

/-- A reserve (markAsBorrowed) or release (markAsAvailable) attempt against
one item record. -/
inductive LedgerOp where
  | reserve
  | release
deriving Repr, DecidableEq

/-- One attempted ledger operation: a throwing call leaves the record
unchanged (both methods throw before mutating any field). -/
def Book.applyLedgerOp (b : Book) (op : LedgerOp) : Book :=
  match op with
  | .reserve =>
    match b.markAsBorrowed with
    | .ok p => p.1
    | .error _ => b
  | .release =>
    match b.markAsAvailable with
    | .ok p => p.1
    | .error _ => b

/-- A sequence of attempted reserve/release operations, applied left to
right. -/
def Book.runLedgerOps (b : Book) (ops : List LedgerOp) : Book :=
  ops.foldl Book.applyLedgerOp b

/-- Concrete book used to exercise the reserve return value: one copy, one
available. -/
def bookOneAvailable : Book :=
  Book.new "book-1" "Fondation" "Isaac Asimov" "Science-Fiction" "" 1 (some 1)

/-- Concrete book used to exercise the release return value: one copy, none
available (a release on it is exactly a 0 to 1 restock transition). -/
def bookNoneAvailable : Book :=
  Book.new "book-1" "Fondation" "Isaac Asimov" "Science-Fiction" "" 1 (some 0)

/-- A user record as produced by userService.findUserById (src/services/userService.js)
via UserFactory (the class hierarchy Member/Librarian/Admin is flattened to the
stored role string, which is all the facade inspects). -/
structure User where
  id : String
  email : String
  name : String
  role : String
deriving Repr, DecidableEq

/-- A Firestore document of the `books` collection.  `totalQuantity`,
`availableQuantity` and `isAvailable` are optional because older documents
(src/seedBooks.js) lack the quantity fields; `none` is a missing field. -/
structure BookDoc where
  id : String
  title : String
  author : String
  genre : String
  coverImageUrl : String
  totalQuantity : Option Int
  availableQuantity : Option Int
  isAvailable : Option Bool
deriving Repr, DecidableEq

/-- JavaScript `x || 1` over a possibly missing numeric field: a missing or
zero (falsy) value yields 1. -/
def jsOrOne : Option Int → Int
  | none => 1
  | some t => if t = 0 then 1 else t

/-- bookService.findBookById (src/services/bookService.js lines 97-119)
rebuilds a Book from the document:
`new Book(id, ..., data.totalQuantity || 1, data.availableQuantity !== undefined
? data.availableQuantity : (data.totalQuantity || 1))`.  Note that the Book
constructor recomputes `isAvailable` from `availableQuantity > 0`; the stored
`isAvailable` field of the document is never read back. -/
def BookDoc.toBook (d : BookDoc) : Book :=
  Book.new d.id d.title d.author d.genre d.coverImageUrl
    (jsOrOne d.totalQuantity)
    (some (d.availableQuantity.getD (jsOrOne d.totalQuantity)))

/-- A Firestore document of the `borrowings` collection
(src/models/borrowing.js: status is one of "pending", "approved",
"rejected", "returned"). -/
structure Borrowing where
  id : String
  userId : String
  bookId : String
  requestDate : Int
  status : String
  approvalDate : Option Int
  dueDate : Option Int
  returnDate : Option Int
deriving Repr, DecidableEq

/-- A Firestore document of the `watchlist` collection
(watchlistService, src/unnamed/part_000). -/
structure WatchEntry where
  id : String
  userId : String
  bookId : String
  createdAt : Int
deriving Repr, DecidableEq

/-- A Firestore document of the `notifications` collection
(src/models/notification.js).  `createdAt` is the creation instant
(`new Date()`), fixed to 0 here since no claim refers to it. -/
structure NotificationRec where
  id : String
  type : String
  message : String
  userId : String
  bookId : Option String
  requestId : Option String
  read : Bool
  createdAt : Int
deriving Repr, DecidableEq

/-- Identifier generated by a Firestore `.add`, from a running counter. -/
def genId (n : Nat) : String :=
  "doc" ++ toString n

/-- The payload object passed to `notificationSubject.notify` and on to the
observers.  The source passes ad-hoc object literals; the union of the fields
the four observers destructure is collected here, a field absent from a given
event being `none` (respectively the empty list). -/
structure EventPayload where
  requestId : Option String
  userId : Option String
  userName : Option String
  bookId : Option String
  bookTitle : Option String
  dueDate : Option Int
  daysOverdue : Option Int
  watchers : List WatchEntry
  librarians : List User
deriving Repr, DecidableEq

/-- The all-absent payload. -/
def EventPayload.empty : EventPayload :=
  { requestId := none, userId := none, userName := none, bookId := none,
    bookTitle := none, dueDate := none, daysOverdue := none,
    watchers := [], librarians := [] }

/-- The document store shared by all services, plus the running id counter
and a log (`dispatched`) of the notify calls the facade issued (event type
with its payload). -/
structure LibState where
  users : List User
  books : List BookDoc
  borrowings : List Borrowing
  watchlist : List WatchEntry
  notifications : List NotificationRec
  dispatched : List (String × EventPayload)
  nextId : Nat
deriving Repr, DecidableEq

/-- userService.findUserById: document lookup by id. -/
def findUserById (users : List User) (userId : String) : Option User :=
  users.find? (fun u => u.id == userId)

/-- bookService.findBookById through bookServiceProxy: lookup plus the
Book-constructor reconstruction of BookDoc.toBook. -/
def findBookById (books : List BookDoc) (bookId : String) : Option Book :=
  (books.find? (fun d => d.id == bookId)).map BookDoc.toBook

/-- borrowingService.findRequestById (src/services/borrowingService.js
lines 84-106). -/
def findRequestById (borrowings : List Borrowing) (requestId : String) :
    Option Borrowing :=
  borrowings.find? (fun b => b.id == requestId)

/-- borrowingService.hasPendingRequestForBook (lines 233-248): a query for
userId == uid, bookId == bid, status == "pending", non-empty result. -/
def hasPendingRequestForBook (borrowings : List Borrowing)
    (userId bookId : String) : Bool :=
  borrowings.any (fun b =>
    b.userId == userId && b.bookId == bookId && b.status == "pending")

/-- borrowingService.updateRequest specialised to the approval write of
libraryFacade.reviewRequest: status "approved", approvalDate, dueDate. -/
def setRequestApproved (borrowings : List Borrowing) (requestId : String)
    (approvalDate dueDate : Int) : List Borrowing :=
  borrowings.map (fun b =>
    if b.id == requestId then
      { b with
        status := "approved"
        approvalDate := some approvalDate
        dueDate := some dueDate }
    else b)

/-- borrowingService.updateRequest specialised to the rejection write of
libraryFacade.reviewRequest: status "rejected". -/
def setRequestRejected (borrowings : List Borrowing) (requestId : String) :
    List Borrowing :=
  borrowings.map (fun b =>
    if b.id == requestId then { b with status := "rejected" } else b)

/-- borrowingService.updateRequest specialised to the return write of
libraryFacade.returnBook: status "returned", returnDate. -/
def setRequestReturned (borrowings : List Borrowing) (requestId : String)
    (returnDate : Int) : List Borrowing :=
  borrowings.map (fun b =>
    if b.id == requestId then
      { b with
        status := "returned"
        returnDate := some returnDate }
    else b)

/-- bookService.updateBook specialised to the only write the facade issues:
merging `{ isAvailable: flag }` into the stored document (the other document
fields are untouched; `updatedAt` is not modelled, no claim reads it). -/
def updateBookIsAvailable (books : List BookDoc) (bookId : String)
    (flag : Bool) : List BookDoc :=
  books.map (fun d =>
    if d.id == bookId then { d with isAvailable := some flag } else d)

/-- Milliseconds per day, the divisor of the due-date computations. -/
def msPerDay : Int := 86400000

/-- One event emitted by the due-date scan, mirroring the payload of the
corresponding `notificationSubject.notify` call in
src/jobs/dueDateCheckerJob.js. -/
inductive DueEvent where
  | overdue (userId userName bookTitle bookId : String)
      (dueDate daysOverdue : Int)
  | reminder (userId userName bookTitle bookId : String) (dueDate : Int)
deriving Repr, DecidableEq

/-- The per-loan body of DueDateCheckerJob.checkDueDates
(src/jobs/dueDateCheckerJob.js lines 98-147): resolve book and user (a
failed lookup skips the loan), compute
`daysDiff = Math.floor((dueDate - now) / day)`; if `now > dueDate` emit
OVERDUE with `daysOverdue = Math.floor((now - dueDate) / day)`, else if
`daysDiff <= 2 && daysDiff >= 0` emit DUE_DATE_REMINDER, else nothing.
`Math.floor` of the real quotient is `Int.fdiv`; `new Date(loan.dueDate)`
of a null dueDate is the epoch, hence `getD 0`. -/
def processLoan (books : List BookDoc) (users : List User) (now : Int)
    (loan : Borrowing) : Option DueEvent :=
  match findBookById books loan.bookId, findUserById users loan.userId with
  | some book, some user =>
    let dueDate := loan.dueDate.getD 0
    let timeDiff := dueDate - now
    let daysDiff := Int.fdiv timeDiff msPerDay
    if now > dueDate then
      some (.overdue user.id user.name book.title book.id dueDate
        (Int.fdiv (now - dueDate) msPerDay))
    else if daysDiff ≤ 2 ∧ 0 ≤ daysDiff then
      some (.reminder user.id user.name book.title book.id dueDate)
    else
      none
  | _, _ => none

/-- DueDateCheckerJob.checkDueDates over the job's `activeLoans` list (the
result of findBorrowingsByStatus for "approved"): the loop emits, in order,
the per-loan events. -/
def checkDueDates (books : List BookDoc) (users : List User) (now : Int)
    (activeLoans : List Borrowing) : List DueEvent :=
  activeLoans.filterMap (processLoan books users now)

/-- Concrete scanner fixture: one approved loan, its book and its user. -/
def loanC6 : Borrowing :=
  { id := "req-1", userId := "u-1", bookId := "book-1", requestDate := 0,
    status := "approved", approvalDate := some 0,
    dueDate := some (20 * msPerDay), returnDate := none }

/-- Concrete book document for the scanner fixture. -/
def bookDocC6 : BookDoc :=
  { id := "book-1", title := "Fondation", author := "Isaac Asimov",
    genre := "Science-Fiction", coverImageUrl := "",
    totalQuantity := some 1, availableQuantity := some 0,
    isAvailable := some false }

/-- Concrete user for the scanner fixture. -/
def userC6 : User :=
  { id := "u-1", email := "u1@library.com", name := "Jean", role := "Member" }

/-- The semantics of one observer's `update(data)` call: it reads the shared
store, writes notification records, and either resolves (`none`) or rejects
with an error message (`some msg`).  The state component is the store as the
call left it, also when it rejects (a JS throw does not undo earlier
writes). -/
def ObsHandler : Type :=
  EventPayload → LibState → LibState × Option String

/-- The try/catch block wrapped around the entire body of every concrete
observer's `update` (newRequestObserver, bookAvailableObserver,
dueDateReminderObserver, overdueObserver all follow this pattern): an error
thrown by the body is caught and logged, so the wrapped call always
resolves, keeping whatever state the body produced. -/
def observerWrap (body : ObsHandler) : ObsHandler :=
  fun data s => ((body data s).1, none)

/-- NotificationSubject.observers: the `Map(type, Set(Observer))`, a set
being its insertion-ordered element list. -/
def ObserverRegistry : Type :=
  List (String × List ObsHandler)

/-- `this.observers.has(ty) ? this.observers.get(ty) : none`. -/
def lookupObservers (reg : ObserverRegistry) (ty : String) :
    Option (List ObsHandler) :=
  (reg.find? (fun e => e.1 == ty)).map (fun e => e.2)

/-- NotificationSubject.notify (src/patterns/observer/notificationSubject.js
lines 44-59): if no observer set is registered for the type, only log (the
state is untouched and the call resolves); otherwise start every observer's
`update(data)` and `Promise.all` the results — every registered handler runs,
and the call rejects with the first rejection when one of them rejects. -/
def notify (reg : ObserverRegistry) (ty : String) (data : EventPayload)
    (s : LibState) : LibState × Option String :=
  match lookupObservers reg ty with
  | none => (s, none)
  | some obs =>
    let r := obs.foldl
      (fun acc h =>
        let one := h data acc.1
        (one.1, acc.2 ++ one.2.toList))
      (s, ([] : List String))
    (r.1, r.2.head?)

/-- notificationService.createNotification
(src/services/notificationService.js): builds the record and `.add`s it to
the `notifications` collection. -/
def createNotification (s : LibState) (ty message userId : String)
    (bookId requestId : Option String) : LibState × NotificationRec :=
  let n : NotificationRec :=
    { id := genId s.nextId, type := ty, message := message, userId := userId,
      bookId := bookId, requestId := requestId, read := false, createdAt := 0 }
  ({ s with
      notifications := s.notifications ++ [n]
      nextId := s.nextId + 1 }, n)

/-- Body of NewRequestObserver.update (src/unnamed/part_005 lines 13-37):
one NEW_REQUEST notification per librarian in the payload (none when the
list is empty); punctuation of the French message elided. -/
def newRequestUpdate : ObsHandler :=
  fun data s =>
    (data.librarians.foldl
      (fun st lib =>
        (createNotification st "NEW_REQUEST"
          ("Nouvelle demande de " ++ data.userName.getD "" ++ " pour " ++
            data.bookTitle.getD "")
          lib.id data.bookId data.requestId).1)
      s, none)

/-- Body of BookAvailableObserver.update
(src/patterns/observer/bookAvailableObserver.js): one BOOK_AVAILABLE
notification per watcher in the payload. -/
def bookAvailableUpdate : ObsHandler :=
  fun data s =>
    (data.watchers.foldl
      (fun st w =>
        (createNotification st "BOOK_AVAILABLE"
          ("Le livre " ++ data.bookTitle.getD "" ++ " est maintenant disponible")
          w.userId data.bookId none).1)
      s, none)

/-- An empty store, the base of several concrete fixtures. -/
def emptyState : LibState :=
  { users := [], books := [], borrowings := [], watchlist := [],
    notifications := [], dispatched := [], nextId := 0 }

/-- Fixture handler body that succeeds, creating one notification. -/
def bodySucceeds : ObsHandler :=
  fun _ s => ((createNotification s "NEW_REQUEST" "msg" "staff-1" none none).1, none)

/-- Fixture handler body that writes and then rejects, exercising the
isolation of a failing observer. -/
def bodyRejects : ObsHandler :=
  fun _ s => ({ s with nextId := s.nextId + 1 }, some "firestore unavailable")

/-- Fixture registry: both bodies attached, behind the observer try/catch
wrapper, for NEW_REQUEST only. -/
def regC7 : ObserverRegistry :=
  [("NEW_REQUEST", [bodySucceeds, bodyRejects].map observerWrap)]

/-- libraryFacade.requestBook (src/facades/libraryFacade.js lines 30-81):
check the user exists, the book exists, `book.isAvailable`, and that no
pending request for the (user, book) pair exists, then create the request in
status "pending" (borrowingService.createBorrowingRequest, lines 29-48).
Every throw happens before the write, so an error leaves the store
unchanged. -/
def requestBook (s : LibState) (userId bookId : String) (now : Int) :
    LibState × Except LibError Borrowing :=
  match findUserById s.users userId with
  | none => (s, .error .userNotFound)
  | some _user =>
    match findBookById s.books bookId with
    | none => (s, .error .bookNotFound)
    | some book =>
      if !book.isAvailable then (s, .error .bookUnavailable)
      else if hasPendingRequestForBook s.borrowings userId bookId then
        (s, .error .duplicatePending)
      else
        let borrowing : Borrowing :=
          { id := genId s.nextId, userId := userId, bookId := bookId,
            requestDate := now, status := "pending", approvalDate := none,
            dueDate := none, returnDate := none }
        ({ s with
            borrowings := s.borrowings ++ [borrowing]
            nextId := s.nextId + 1 }, .ok borrowing)

/-- The success value of libraryFacade.reviewRequest: the source returns an
object with `action`, `requestId` and, for approvals, the book title and the
due date. -/
inductive ReviewResult where
  | rejected (requestId : String)
  | approved (requestId bookTitle : String) (dueDate : Int)
deriving Repr, DecidableEq

/-- libraryFacade.reviewRequest (src/facades/libraryFacade.js lines 98-190):
role check, request lookup, "already processed" guard on a non-pending
status; for "reject" a status write; for "approve" re-read the book, fail
with Conflict when `book.isAvailable` is false, compute
`dueDate = returnDueDate or now + 14 days`, write the approval into the
request and merge `isAvailable: false` into the stored book document.
Every throw happens before the first write. -/
def reviewRequest (s : LibState) (librarianUser : User)
    (requestId action : String) (returnDueDate : Option Int) (now : Int) :
    LibState × Except LibError ReviewResult :=
  if librarianUser.role ≠ "Librarian" ∧ librarianUser.role ≠ "Admin" then
    (s, .error .accessDenied)
  else
    match findRequestById s.borrowings requestId with
    | none => (s, .error .requestNotFound)
    | some request =>
      if request.status ≠ "pending" then (s, .error .alreadyProcessed)
      else if action = "reject" then
        ({ s with borrowings := setRequestRejected s.borrowings requestId },
          .ok (.rejected requestId))
      else if action = "approve" then
        match findBookById s.books request.bookId with
        | none => (s, .error .bookNotFound)
        | some book =>
          if !book.isAvailable then (s, .error .bookJustBorrowed)
          else
            let approvalDate := now
            let dueDate :=
              match returnDueDate with
              | some d => d
              | none => approvalDate + 14 * msPerDay
            let s1 :=
              { s with
                borrowings :=
                  setRequestApproved s.borrowings requestId approvalDate dueDate }
            let s2 :=
              { s1 with
                books := updateBookIsAvailable s1.books request.bookId false }
            (s2, .ok (.approved requestId book.title dueDate))
      else (s, .error .invalidAction)

/-- watchlistService.getBookWatchers (src/unnamed/part_000 lines 132-154):
all entries of the `watchlist` collection whose bookId matches. -/
def getBookWatchers (watchlist : List WatchEntry) (bookId : String) :
    List WatchEntry :=
  watchlist.filter (fun e => e.bookId == bookId)

/-- watchlistService.clearBookWatchers (src/unnamed/part_000 lines 161-179):
one batch delete of every entry of the book. -/
def clearBookWatchers (watchlist : List WatchEntry) (bookId : String) :
    List WatchEntry :=
  watchlist.filter (fun e => !(e.bookId == bookId))

/-- The observer registration for BOOK_AVAILABLE: the BookAvailableObserver
(behind its own try/catch) attached for that type. -/
def restockRegistry : ObserverRegistry :=
  [("BOOK_AVAILABLE", [observerWrap bookAvailableUpdate])]

/-- The observer registration for NEW_REQUEST: the NewRequestObserver
(behind its own try/catch) attached for that type. -/
def newRequestRegistry : ObserverRegistry :=
  [("NEW_REQUEST", [observerWrap newRequestUpdate])]

/-- Modelled from the spec: section 4.5 `onRestock(itemId)` — invoked when a
release transitions availability from zero to positive; retrieves all
watchers of the item, emits a single BOOK_AVAILABLE dispatch carrying the
full watcher list, then deletes all the item's watchlist entries as a single
batch.  The facade revision wiring this flow is absent from the snapshot
(only its collaborators are present); the watcher retrieval, the
BOOK_AVAILABLE observer and the batch delete are the src watchlistService
and bookAvailableObserver embeddings above. -/
def onRestock (s : LibState) (bookId bookTitle : String) : LibState :=
  let watchers := getBookWatchers s.watchlist bookId
  let payload :=
    { EventPayload.empty with
      bookId := some bookId
      bookTitle := some bookTitle
      watchers := watchers }
  let s1 := { s with dispatched := s.dispatched ++ [("BOOK_AVAILABLE", payload)] }
  let s2 := (notify restockRegistry "BOOK_AVAILABLE" payload s1).1
  { s2 with watchlist := clearBookWatchers s2.watchlist bookId }

/-- bookService.updateBook specialised to writing an updated ledger record
back into the stored document (quantity and availability flag). -/
def writeBackQuantities (books : List BookDoc) (bookId : String) (b : Book) :
    List BookDoc :=
  books.map (fun d =>
    if d.id == bookId then
      { d with
        availableQuantity := some b.availableQuantity
        isAvailable := some b.isAvailable }
    else d)

/-- Modelled from the spec: section 4.2 `returnItem(requestId)` — the facade
revision that wires the return to the inventory release and the watchlist
restock handling is missing from the snapshot: the src
libraryFacade.returnBook (lines 295-349) predates the quantity ledger (it
merges `isAvailable: true` into the stored document, a field
bookService.findBookById never reads back, and neither notifies watchers nor
clears the watchlist), while the repository's own NOTIFICATION_FIXES.md
documents the BookAvailableObserver restock flow as operational.  The lookup,
status guard and status write below follow the src returnBook; the release is
the src Book.markAsAvailable written back to the document; the restock signal
(the release transitioned availability 0 to 1, spec 4.1) and the onRestock
invocation follow the spec's words.  The success value is the `wasLate`
flag the source computes from `returnDate > dueDate`. -/
def returnItem (s : LibState) (requestId : String) (now : Int) :
    LibState × Except LibError Bool :=
  match findRequestById s.borrowings requestId with
  | none => (s, .error .requestNotFound)
  | some request =>
    if request.status ≠ "approved" then (s, .error .notReturnable)
    else
      match findBookById s.books request.bookId with
      | none => (s, .error .bookNotFound)
      | some book =>
        let wasLate :=
          match request.dueDate with
          | some d => decide (now > d)
          | none => false
        let s1 :=
          { s with borrowings := setRequestReturned s.borrowings requestId now }
        match book.markAsAvailable with
        | .error e => (s1, .error e)
        | .ok (book2, _) =>
          let restocked := book.availableQuantity == 0
          let s2 :=
            { s1 with books := writeBackQuantities s1.books request.bookId book2 }
          if restocked then (onRestock s2 request.bookId book.title, .ok wasLate)
          else (s2, .ok wasLate)

/-- Modelled from the spec: section 4.2 `createRequest` — "otherwise creates
a new request in pending and emits a NEW_REQUEST event (payload: requester,
item, the set of staff recipients — supplied by the caller) through the
Notification Dispatcher".  The checks and the creation are the src
requestBook above; only the emission glue is modelled from the spec, the
NEW_REQUEST observer being the src embedding. -/
def requestBookWithNotify (s : LibState) (userId bookId : String) (now : Int)
    (staff : List User) : LibState × Except LibError Borrowing :=
  match requestBook s userId bookId now with
  | (s1, .ok borrowing) =>
    let payload :=
      { EventPayload.empty with
        requestId := some borrowing.id
        userId := some userId
        userName := (findUserById s.users userId).map (fun u => u.name)
        bookId := some bookId
        bookTitle := (findBookById s.books bookId).map (fun b => b.title)
        librarians := staff }
    let s2 := { s1 with dispatched := s1.dispatched ++ [("NEW_REQUEST", payload)] }
    ((notify newRequestRegistry "NEW_REQUEST" payload s2).1, .ok borrowing)
  | r => r

/-- The notification records the BookAvailableObserver creates for a watcher
list, with the running ids they are assigned. -/
def bookAvailableNotifs : List WatchEntry → Nat → Option String → String →
    List NotificationRec
  | [], _, _, _ => []
  | w :: rest, n, bid, bookTitle =>
    { id := genId n, type := "BOOK_AVAILABLE",
      message := "Le livre " ++ bookTitle ++ " est maintenant disponible",
      userId := w.userId, bookId := bid, requestId := none, read := false,
      createdAt := 0 } :: bookAvailableNotifs rest (n + 1) bid bookTitle

/-- The notification records the NewRequestObserver creates for a staff
list, with the running ids they are assigned. -/
def newRequestNotifs : List User → Nat → String → String → Option String →
    Option String → List NotificationRec
  | [], _, _, _, _, _ => []
  | lib :: rest, n, userName, bookTitle, bid, rid =>
    { id := genId n, type := "NEW_REQUEST",
      message := "Nouvelle demande de " ++ userName ++ " pour " ++ bookTitle,
      userId := lib.id, bookId := bid, requestId := rid, read := false,
      createdAt := 0 } :: newRequestNotifs rest (n + 1) userName bookTitle bid rid

/-- The invariant of claim C8: no two distinct requests in the store are
both pending for the same (borrower, item) pair. -/
def atMostOnePendingPer (l : List Borrowing) : Prop :=
  l.Pairwise (fun a b =>
    ¬(a.status = "pending" ∧ b.status = "pending" ∧
      a.userId = b.userId ∧ a.bookId = b.bookId))

/-- Fixture librarian. -/
def librarianMarie : User :=
  { id := "staff-1", email := "marie@library.com", name := "Marie",
    role := "Librarian" }

/-- Fixture member who owns the borrow requests. -/
def memberJean : User :=
  { id := "u-1", email := "u1@library.com", name := "Jean", role := "Member" }

/-- Fixture second member. -/
def memberPaul : User :=
  { id := "u-2", email := "u2@library.com", name := "Paul", role := "Member" }

/-- Fixture book document with one copy, one available. -/
def bookDocX : BookDoc :=
  { id := "X", title := "Fondation", author := "Isaac Asimov",
    genre := "Science-Fiction", coverImageUrl := "",
    totalQuantity := some 1, availableQuantity := some 1,
    isAvailable := some true }

/-- Fixture book document with one copy, none available. -/
def bookDocXEmpty : BookDoc :=
  { id := "X", title := "Fondation", author := "Isaac Asimov",
    genre := "Science-Fiction", coverImageUrl := "",
    totalQuantity := some 1, availableQuantity := some 0,
    isAvailable := some false }

/-- Fixture pending request A of Jean for X. -/
def requestA : Borrowing :=
  { id := "A", userId := "u-1", bookId := "X", requestDate := 10,
    status := "pending", approvalDate := none, dueDate := none,
    returnDate := none }

/-- Fixture pending request B of Paul for X. -/
def requestB : Borrowing :=
  { id := "B", userId := "u-2", bookId := "X", requestDate := 20,
    status := "pending", approvalDate := none, dueDate := none,
    returnDate := none }

/-- Fixture store for the concurrent-approval scenario: one copy of X
available, requests A and B both pending for X. -/
def stateRace : LibState :=
  { users := [memberJean, memberPaul, librarianMarie], books := [bookDocX],
    borrowings := [requestA, requestB], watchlist := [], notifications := [],
    dispatched := [], nextId := 100 }

/-- Fixture request already returned (a terminal status). -/
def requestReturnedR : Borrowing :=
  { id := "R", userId := "u-2", bookId := "X", requestDate := 5,
    status := "returned", approvalDate := some 6, dueDate := some 7,
    returnDate := some 8 }

/-- Fixture store for the approve-conflict cases: X has zero available
copies, request R is already returned, request A is still pending. -/
def stateC4 : LibState :=
  { users := [memberJean, memberPaul, librarianMarie],
    books := [bookDocXEmpty], borrowings := [requestReturnedR, requestA],
    watchlist := [], notifications := [], dispatched := [], nextId := 100 }

/-- Fixture store for the duplicate-pending scenario: no request yet. -/
def stateC8 : LibState :=
  { users := [memberJean], books := [bookDocX], borrowings := [],
    watchlist := [], notifications := [], dispatched := [], nextId := 0 }

/-- The request the first successful createRequest of the C8 scenario
produces. -/
def newReqC8 : Borrowing :=
  { id := genId 0, userId := "u-1", bookId := "X", requestDate := 50,
    status := "pending", approvalDate := none, dueDate := none,
    returnDate := none }

/-- The store after the first successful createRequest of the C8 scenario. -/
def stateC8after : LibState :=
  { stateC8 with
    borrowings := stateC8.borrowings ++ [newReqC8]
    nextId := 1 }

/-- Fixture watchlist entry: Paul watches X. -/
def watchW : WatchEntry :=
  { id := "w-1", userId := "u-2", bookId := "X", createdAt := 0 }

/-- Fixture approved request of Jean for X, due at 30. -/
def requestApprovedA : Borrowing :=
  { id := "A", userId := "u-1", bookId := "X", requestDate := 10,
    status := "approved", approvalDate := some 20, dueDate := some 30,
    returnDate := none }

/-- Fixture store for the restock scenario: X exhausted, Jean's approved
loan outstanding, Paul watching X. -/
def stateC5 : LibState :=
  { users := [memberJean, memberPaul], books := [bookDocXEmpty],
    borrowings := [requestApprovedA], watchlist := [watchW],
    notifications := [], dispatched := [], nextId := 0 }

end LibraryArchi

namespace LibraryArchi

theorem applyLedgerOp_totalQuantity (b : Book) (op : LedgerOp) :
    (b.applyLedgerOp op).totalQuantity = b.totalQuantity := by
  cases op
  · by_cases h : b.availableQuantity ≤ 0 <;>
      simp [Book.applyLedgerOp, Book.markAsBorrowed, h]
  · by_cases h : b.availableQuantity ≥ b.totalQuantity <;>
      simp [Book.applyLedgerOp, Book.markAsAvailable, h]

theorem applyLedgerOp_invariant (b : Book) (op : LedgerOp)
    (h0 : 0 ≤ b.availableQuantity) (h1 : b.availableQuantity ≤ b.totalQuantity) :
    0 ≤ (b.applyLedgerOp op).availableQuantity ∧
      (b.applyLedgerOp op).availableQuantity ≤ (b.applyLedgerOp op).totalQuantity := by
  cases op
  · by_cases h : b.availableQuantity ≤ 0 <;>
      simp [Book.applyLedgerOp, Book.markAsBorrowed, h] <;> omega
  · by_cases h : b.availableQuantity ≥ b.totalQuantity <;>
      simp [Book.applyLedgerOp, Book.markAsAvailable, h] <;> omega

/-- Claim C1: for every item, starting from any state with
0 ≤ availableQuantity ≤ totalQuantity, every sequence of reserve
(markAsBorrowed) and release (markAsAvailable) attempts preserves
0 ≤ availableQuantity ≤ totalQuantity: neither operation can drive the
counter below zero or above the total. -/
theorem C1_ledger_invariant (b : Book) (ops : List LedgerOp)
    (h0 : 0 ≤ b.availableQuantity) (h1 : b.availableQuantity ≤ b.totalQuantity) :
    0 ≤ (b.runLedgerOps ops).availableQuantity ∧
      (b.runLedgerOps ops).availableQuantity ≤ (b.runLedgerOps ops).totalQuantity := by
  induction ops generalizing b with
  | nil => exact ⟨h0, h1⟩
  | cons op rest ih =>
    have hstep := applyLedgerOp_invariant b op h0 h1
    have htot := applyLedgerOp_totalQuantity b op
    simpa [Book.runLedgerOps] using ih (b.applyLedgerOp op) hstep.1 hstep.2

/-- Witness for C1 at a concrete book and operation sequence. -/
theorem C1_ledger_invariant_witness :
    0 ≤ (bookOneAvailable.runLedgerOps
          [.reserve, .reserve, .release, .release, .reserve]).availableQuantity ∧
      (bookOneAvailable.runLedgerOps
          [.reserve, .reserve, .release, .release, .reserve]).availableQuantity ≤
        (bookOneAvailable.runLedgerOps
          [.reserve, .reserve, .release, .release, .reserve]).totalQuantity :=
  C1_ledger_invariant bookOneAvailable [.reserve, .reserve, .release, .release, .reserve]
    (by decide) (by decide)

/-- Claim C3, counterexample.  The claim states that a successful reserve
returns the new availability value and that a successful release returns
whether the release transitioned availability from 0 to 1.  Neither method of
src/models/book.js has a return statement, so both calls evaluate to
`undefined` (`none`): at a book with one available copy, reserve succeeds
with new value 0 but returns `none`, not the new value `some 0`; at a book
with zero of one copies available, release succeeds and is precisely a 0 to 1
transition, but returns `none`, not `some true`. -/
theorem C3_counterexample :
    Book.markAsBorrowed bookOneAvailable =
      .ok ({ bookOneAvailable with availableQuantity := 0, isAvailable := false },
        (none : Option Int)) ∧
    (none : Option Int) ≠ some 0 ∧
    bookNoneAvailable.availableQuantity = 0 ∧
    Book.markAsAvailable bookNoneAvailable =
      .ok ({ bookNoneAvailable with availableQuantity := 1, isAvailable := true },
        (none : Option Bool)) ∧
    (none : Option Bool) ≠ some true := by
  refine ⟨rfl, by decide, by decide, rfl, by decide⟩

/-- Claim C3, amended: reserve (markAsBorrowed) fails if and only if
availableQuantity is 0 at the attempt (given a non-negative counter), and on
success decrements availableQuantity by exactly 1, leaving the new value in
the book record; the method itself returns undefined, not the new value.
Release (markAsAvailable) fails if and only if availableQuantity already
equals totalQuantity (given the counter is at most the total), and on success
increments availableQuantity by exactly 1 and recomputes isAvailable (true);
the method returns undefined, not a 0-to-1 restock indicator — the restock
transition is recoverable only by comparing the states (new value 1 after a
success if and only if the old value was 0). -/
theorem C3_reserve_release_contract (b : Book)
    (h0 : 0 ≤ b.availableQuantity) (h1 : b.availableQuantity ≤ b.totalQuantity) :
    ((b.markAsBorrowed = .error .noCopyAvailable) ↔ b.availableQuantity = 0) ∧
    (∀ b' r, b.markAsBorrowed = .ok (b', r) →
      b'.availableQuantity = b.availableQuantity - 1 ∧
      b'.totalQuantity = b.totalQuantity ∧ r = none) ∧
    ((b.markAsAvailable = .error .allCopiesAvailable) ↔
      b.availableQuantity = b.totalQuantity) ∧
    (∀ b' r, b.markAsAvailable = .ok (b', r) →
      b'.availableQuantity = b.availableQuantity + 1 ∧
      b'.totalQuantity = b.totalQuantity ∧ r = none ∧ b'.isAvailable = true ∧
      (b.availableQuantity = 0 ↔ b'.availableQuantity = 1)) := by
  refine ⟨?_, ?_, ?_, ?_⟩
  · simp only [Book.markAsBorrowed]
    split <;> simp <;> omega
  · intro b' r h
    simp only [Book.markAsBorrowed] at h
    split at h
    · exact absurd h (by simp)
    · simp only [Except.ok.injEq, Prod.mk.injEq] at h
      obtain ⟨hb, hr⟩ := h
      subst hb
      simp [hr.symm]
  · simp only [Book.markAsAvailable]
    split <;> simp <;> omega
  · intro b' r h
    simp only [Book.markAsAvailable] at h
    split at h
    · exact absurd h (by simp)
    · rename_i hge
      simp only [Except.ok.injEq, Prod.mk.injEq] at h
      obtain ⟨hb, hr⟩ := h
      subst hb
      refine ⟨by simp, by simp, hr.symm, ?_, by simp⟩
      simp only [decide_eq_true_eq]
      omega

/-- Witness for the amended C3 at a concrete book. -/
theorem C3_reserve_release_contract_witness :
    ((bookOneAvailable.markAsBorrowed = .error .noCopyAvailable) ↔
      bookOneAvailable.availableQuantity = 0) ∧
    (∀ b' r, bookOneAvailable.markAsBorrowed = .ok (b', r) →
      b'.availableQuantity = bookOneAvailable.availableQuantity - 1 ∧
      b'.totalQuantity = bookOneAvailable.totalQuantity ∧ r = none) ∧
    ((bookOneAvailable.markAsAvailable = .error .allCopiesAvailable) ↔
      bookOneAvailable.availableQuantity = bookOneAvailable.totalQuantity) ∧
    (∀ b' r, bookOneAvailable.markAsAvailable = .ok (b', r) →
      b'.availableQuantity = bookOneAvailable.availableQuantity + 1 ∧
      b'.totalQuantity = bookOneAvailable.totalQuantity ∧ r = none ∧
      b'.isAvailable = true ∧
      (bookOneAvailable.availableQuantity = 0 ↔ b'.availableQuantity = 1)) :=
  C3_reserve_release_contract bookOneAvailable (by decide) (by decide)

end LibraryArchi

namespace LibraryArchi

/-- Claim C6: for every approved request the scanner resolves, a run at time
now emits exactly one OVERDUE event with
daysOverdue = floor((now - dueAt) / 1 day) when now > dueAt; otherwise one
DUE_DATE_REMINDER when daysUntilDue = floor((dueAt - now) / 1 day) is between
0 and 2; otherwise nothing — at most one event per request per scan (each
loan contributes an Option to the scan's event list), with one
DUE_DATE_REMINDER at now = dueAt - 1 day and one OVERDUE with daysOverdue = 3
at now = dueAt + 3 days.  (When now ≤ dueAt, daysUntilDue is automatically
non-negative, so the code's extra `daysDiff >= 0` conjunct agrees with the
claim's 0 ≤ daysUntilDue.) -/
theorem C6_scanner_cases (books : List BookDoc) (users : List User)
    (now : Int) (loan : Borrowing) (book : Book) (user : User) (dueAt : Int)
    (hb : findBookById books loan.bookId = some book)
    (hu : findUserById users loan.userId = some user)
    (hd : loan.dueDate = some dueAt) :
    (now > dueAt →
      processLoan books users now loan =
        some (.overdue user.id user.name book.title book.id dueAt
          (Int.fdiv (now - dueAt) msPerDay))) ∧
    (now ≤ dueAt →
      (Int.fdiv (dueAt - now) msPerDay ≤ 2 →
        processLoan books users now loan =
          some (.reminder user.id user.name book.title book.id dueAt)) ∧
      (2 < Int.fdiv (dueAt - now) msPerDay →
        processLoan books users now loan = none)) ∧
    (∀ rest, checkDueDates books users now (loan :: rest) =
      (processLoan books users now loan).toList ++
        checkDueDates books users now rest) ∧
    (now = dueAt - msPerDay →
      processLoan books users now loan =
        some (.reminder user.id user.name book.title book.id dueAt)) ∧
    (now = dueAt + 3 * msPerDay →
      processLoan books users now loan =
        some (.overdue user.id user.name book.title book.id dueAt 3)) := by
  have hpos : (0 : Int) < msPerDay := by decide
  refine ⟨?_, ?_, ?_, ?_, ?_⟩
  · intro hlt
    simp [processLoan, hb, hu, hd, hlt]
  · intro hle
    have hnn : 0 ≤ Int.fdiv (dueAt - now) msPerDay :=
      Int.fdiv_nonneg (by omega) (by decide)
    constructor
    · intro h2
      simp [processLoan, hb, hu, hd, not_lt.2 hle, h2, hnn]
    · intro h2
      simp [processLoan, hb, hu, hd, not_lt.2 hle]
      omega
  · intro rest
    cases h : processLoan books users now loan <;>
      simp [checkDueDates, h]
  · intro hnow
    subst hnow
    have hc1 : ¬ (dueAt < dueAt - msPerDay) := by omega
    have hf1 : Int.fdiv msPerDay msPerDay = 1 := by decide
    simp [processLoan, hb, hu, hd, hc1, hf1]
  · intro hnow
    subst hnow
    have hlt : dueAt < dueAt + 3 * msPerDay := by omega
    have hf3 : Int.fdiv (3 * msPerDay) msPerDay = 3 := by decide
    simp [processLoan, hb, hu, hd, hlt, hf3]

/-- Witness for C6: the concrete fixture scanned one day before the due date
and three days after it. -/
theorem C6_scanner_cases_witness :
    processLoan [bookDocC6] [userC6] (19 * msPerDay) loanC6 =
      some (.reminder userC6.id userC6.name (BookDoc.toBook bookDocC6).title
        (BookDoc.toBook bookDocC6).id (20 * msPerDay)) ∧
    processLoan [bookDocC6] [userC6] (23 * msPerDay) loanC6 =
      some (.overdue userC6.id userC6.name (BookDoc.toBook bookDocC6).title
        (BookDoc.toBook bookDocC6).id (20 * msPerDay) 3) :=
  ⟨(C6_scanner_cases [bookDocC6] [userC6] (19 * msPerDay) loanC6
      (BookDoc.toBook bookDocC6) userC6 (20 * msPerDay)
      (by decide) (by decide) (by decide)).2.2.2.1 (by decide),
   (C6_scanner_cases [bookDocC6] [userC6] (23 * msPerDay) loanC6
      (BookDoc.toBook bookDocC6) userC6 (20 * msPerDay)
      (by decide) (by decide) (by decide)).2.2.2.2 (by decide)⟩

end LibraryArchi

namespace LibraryArchi

theorem notify_foldl_wrapped (data : EventPayload)
    (bodies : List ObsHandler) (s : LibState) (errs : List String) :
    (bodies.map observerWrap).foldl
      (fun acc h =>
        let one := h data acc.1
        (one.1, acc.2 ++ one.2.toList))
      (s, errs) =
    (bodies.foldl (fun st b => (b data st).1) s, errs) := by
  induction bodies generalizing s with
  | nil => rfl
  | cons b rest ih =>
    simp only [List.map_cons, List.foldl_cons, observerWrap, Option.toList,
      List.append_nil]
    exact ih ((b data s).1)

/-- Claim C7: for every event type and payload, notify invokes every handler
registered for that type (the final store is the left fold of all their
bodies); with the observers' own try/catch wrapping, one handler's error
neither prevents the other handlers from running nor propagates to the
caller of notify (the call resolves); and when no handler is registered for
the type, notify is a no-op leaving all state unchanged. -/
theorem C7_notify_isolation (reg : ObserverRegistry) (ty : String)
    (data : EventPayload) (s : LibState) (bodies : List ObsHandler) :
    (lookupObservers reg ty = some (bodies.map observerWrap) →
      notify reg ty data s =
        (bodies.foldl (fun st b => (b data st).1) s, none)) ∧
    (lookupObservers reg ty = none → notify reg ty data s = (s, none)) := by
  constructor
  · intro h
    simp only [notify, h, notify_foldl_wrapped, List.head?]
  · intro h
    simp only [notify, h]

/-- Witness for C7: a registry whose NEW_REQUEST set holds one succeeding
and one rejecting observer — notify resolves and both bodies ran — and a
lookup of a type with no observer — notify leaves the store unchanged. -/
theorem C7_notify_isolation_witness :
    notify regC7 "NEW_REQUEST" EventPayload.empty emptyState =
      ([bodySucceeds, bodyRejects].foldl
        (fun st b => (b EventPayload.empty st).1) emptyState, none) ∧
    notify regC7 "OVERDUE" EventPayload.empty emptyState =
      (emptyState, none) :=
  ⟨(C7_notify_isolation regC7 "NEW_REQUEST" EventPayload.empty emptyState
      [bodySucceeds, bodyRejects]).1 rfl,
   (C7_notify_isolation regC7 "OVERDUE" EventPayload.empty emptyState
      [bodySucceeds, bodyRejects]).2 rfl⟩

end LibraryArchi

namespace LibraryArchi

/-- Claim C2, evidence against it.  The approval path of
libraryFacade.reviewRequest is a read-then-write: it re-reads the book,
checks `book.isAvailable`, and only then merges `isAvailable: false` into the
stored document — and bookService.findBookById reconstructs availability from
`availableQuantity` (never decremented by the facade), so the write is not
even observed by the next read.  With one available copy of X and the
distinct pending requests A and B, approving A and then B (the fully
serialized schedule, the best case for the claimed property) makes both
calls succeed instead of exactly one, and the availability counter still
reads 1 afterwards instead of 0. -/
theorem C2_race_evidence :
    (reviewRequest stateRace librarianMarie "A" "approve" none 1000).2 =
      .ok (.approved "A" "Fondation" (1000 + 14 * msPerDay)) ∧
    (reviewRequest (reviewRequest stateRace librarianMarie "A" "approve" none 1000).1
        librarianMarie "B" "approve" none 2000).2 =
      .ok (.approved "B" "Fondation" (2000 + 14 * msPerDay)) ∧
    ((reviewRequest (reviewRequest stateRace librarianMarie "A" "approve" none 1000).1
        librarianMarie "B" "approve" none 2000).1.books.map
      (fun d => d.availableQuantity)) = [some 1] := by
  refine ⟨by decide, by decide, by decide⟩

/-- Claim C4: with a staff reviewer, approve on a request whose status is not
pending fails with Conflict ("already processed") and leaves the store
untouched; and approve on a pending request whose item availability has
dropped to zero (the re-read book is not available) fails with Conflict — it
is not silently auto-rejected — and the request record is left completely
unmutated: the returned store is the input store, so the status stays
pending and approvalDate and dueDate keep their values. -/
theorem C4_approve_conflict_unmutated (s : LibState) (lib : User)
    (requestId : String) (rdd : Option Int) (now : Int)
    (request : Borrowing) (book : Book)
    (hrole : lib.role = "Librarian" ∨ lib.role = "Admin")
    (hreq : findRequestById s.borrowings requestId = some request) :
    (request.status ≠ "pending" →
      reviewRequest s lib requestId "approve" rdd now =
        (s, .error .alreadyProcessed)) ∧
    (request.status = "pending" →
      findBookById s.books request.bookId = some book →
      book.isAvailable = false →
      reviewRequest s lib requestId "approve" rdd now =
        (s, .error .bookJustBorrowed)) := by
  have hg : ¬(lib.role ≠ "Librarian" ∧ lib.role ≠ "Admin") := by
    rcases hrole with h | h <;> simp [h]
  constructor
  · intro hst
    simp [reviewRequest, hg, hreq, hst]
  · intro hst hbook hav
    simp [reviewRequest, hg, hreq, hst, hbook, hav]

/-- Witness for C4: a returned request is rejected as already processed, and
a pending request for the exhausted copy of X fails with the
just-borrowed Conflict, both leaving the store unchanged. -/
theorem C4_approve_conflict_unmutated_witness :
    reviewRequest stateC4 librarianMarie "R" "approve" none 0 =
      (stateC4, .error .alreadyProcessed) ∧
    reviewRequest stateC4 librarianMarie "A" "approve" none 0 =
      (stateC4, .error .bookJustBorrowed) :=
  ⟨(C4_approve_conflict_unmutated stateC4 librarianMarie "R" none 0
      requestReturnedR (BookDoc.toBook bookDocXEmpty)
      (Or.inl rfl) (by decide)).1 (by decide),
   (C4_approve_conflict_unmutated stateC4 librarianMarie "A" none 0
      requestA (BookDoc.toBook bookDocXEmpty)
      (Or.inl rfl) (by decide)).2 (by decide) (by decide) (by decide)⟩

end LibraryArchi

namespace LibraryArchi

theorem findRequestById_setRequestApproved (l : List Borrowing)
    (rid : String) (a d : Int) :
    findRequestById (setRequestApproved l rid a d) rid =
      (findRequestById l rid).map (fun b =>
        { b with
          status := "approved"
          approvalDate := some a
          dueDate := some d }) := by
  induction l with
  | nil => rfl
  | cons b rest ih =>
    cases hid : (b.id == rid) <;>
      simp_all [setRequestApproved, findRequestById, List.find?_cons]

/-- Claim C9: for every pending request on an available item, with a staff
reviewer, a successful approve writes status "approved",
approvalDate = now and dueDate = the caller-supplied due date when one is
supplied and now + 14 days otherwise (both cases collapse to
`returnDueDate.getD (now + 14 days)`), and marks the stored book document
unavailable; re-reading the request afterwards shows exactly those field
values. -/
theorem C9_approve_sets_fields (s : LibState) (lib : User)
    (requestId : String) (rdd : Option Int) (now : Int)
    (request : Borrowing) (book : Book)
    (hrole : lib.role = "Librarian" ∨ lib.role = "Admin")
    (hreq : findRequestById s.borrowings requestId = some request)
    (hst : request.status = "pending")
    (hbook : findBookById s.books request.bookId = some book)
    (hav : book.isAvailable = true) :
    reviewRequest s lib requestId "approve" rdd now =
      ({ s with
          borrowings :=
            setRequestApproved s.borrowings requestId now
              (rdd.getD (now + 14 * msPerDay))
          books := updateBookIsAvailable s.books request.bookId false },
        .ok (.approved requestId book.title (rdd.getD (now + 14 * msPerDay)))) ∧
    findRequestById
        (setRequestApproved s.borrowings requestId now
          (rdd.getD (now + 14 * msPerDay))) requestId =
      some { request with
        status := "approved"
        approvalDate := some now
        dueDate := some (rdd.getD (now + 14 * msPerDay)) } := by
  have hg : ¬(lib.role ≠ "Librarian" ∧ lib.role ≠ "Admin") := by
    rcases hrole with h | h <;> simp [h]
  constructor
  · cases rdd <;>
      simp [reviewRequest, hg, hreq, hst, hbook, hav, Option.getD]
  · rw [findRequestById_setRequestApproved, hreq]
    rfl

/-- Witness for C9 at the race fixture with no caller-supplied due date. -/
theorem C9_approve_sets_fields_witness :
    reviewRequest stateRace librarianMarie "A" "approve" none 1000 =
      ({ stateRace with
          borrowings :=
            setRequestApproved stateRace.borrowings "A" 1000
              ((none : Option Int).getD (1000 + 14 * msPerDay))
          books := updateBookIsAvailable stateRace.books requestA.bookId false },
        .ok (.approved "A" (BookDoc.toBook bookDocX).title
          ((none : Option Int).getD (1000 + 14 * msPerDay)))) ∧
    findRequestById
        (setRequestApproved stateRace.borrowings "A" 1000
          ((none : Option Int).getD (1000 + 14 * msPerDay))) "A" =
      some { requestA with
        status := "approved"
        approvalDate := some 1000
        dueDate := some ((none : Option Int).getD (1000 + 14 * msPerDay)) } :=
  C9_approve_sets_fields stateRace librarianMarie "A" none 1000
    requestA (BookDoc.toBook bookDocX)
    (Or.inl rfl) (by decide) (by decide) (by decide) (by decide)

end LibraryArchi

namespace LibraryArchi

/-- Claim C8: at most one pending request per (borrower, item) pair.  When a
pending request for the pair already exists, createRequest (requestBook)
fails with Conflict and the store is returned unchanged, so no new request
is created; and a successful createRequest adds a pending request for the
pair, preserves the at-most-one-pending invariant, and makes a second
createRequest for the same pair, issued while the first is still pending,
fail with Conflict without creating anything. -/
theorem C8_single_pending_per_pair (s : LibState) (userId bookId : String)
    (now now2 : Int) (user : User) (book : Book)
    (hinv : atMostOnePendingPer s.borrowings)
    (huser : findUserById s.users userId = some user)
    (hbook : findBookById s.books bookId = some book)
    (hav : book.isAvailable = true) :
    (hasPendingRequestForBook s.borrowings userId bookId = true →
      requestBook s userId bookId now = (s, .error .duplicatePending)) ∧
    (∀ s1 b, requestBook s userId bookId now = (s1, .ok b) →
      b.status = "pending" ∧ b ∈ s1.borrowings ∧
      atMostOnePendingPer s1.borrowings ∧
      requestBook s1 userId bookId now2 = (s1, .error .duplicatePending)) := by
  constructor
  · intro hp
    simp [requestBook, huser, hbook, hav, hp]
  · intro s1 b h
    cases hp : hasPendingRequestForBook s.borrowings userId bookId
    · simp [requestBook, huser, hbook, hav, hp, Prod.ext_iff] at h
      obtain ⟨hs1, hb⟩ := h
      subst hs1
      have hnotpend : ∀ a ∈ s.borrowings,
          ¬(a.userId = userId ∧ a.bookId = bookId ∧ a.status = "pending") := by
        intro a ha hcontra
        have := List.any_eq_false.mp hp a ha
        simp [hcontra.1, hcontra.2.1, hcontra.2.2] at this
      refine ⟨by simp [hb.symm], by simp [hb.symm], ?_, ?_⟩
      · unfold atMostOnePendingPer
        rw [List.pairwise_append]
        refine ⟨hinv, by simp, ?_⟩
        intro a ha c hc
        simp only [List.mem_singleton] at hc
        subst hc
        intro hcontra
        exact hnotpend a ha ⟨hcontra.2.2.1.symm ▸ rfl, hcontra.2.2.2.symm ▸ rfl,
          hcontra.1⟩
      · have hp2 : hasPendingRequestForBook
            (s.borrowings ++
              [{ id := genId s.nextId, userId := userId, bookId := bookId,
                 requestDate := now, status := "pending", approvalDate := none,
                 dueDate := none, returnDate := none }]) userId bookId = true := by
          simp [hasPendingRequestForBook]
        simp [requestBook, huser, hbook, hav, hp2]
    · simp [requestBook, huser, hbook, hav, hp, Prod.ext_iff] at h

/-- Witness for C8: in the race fixture a pending request of Jean for X
already exists, so requestBook conflicts; in the empty fixture the first
createRequest succeeds in pending status, keeps the invariant, and the
second call for the same pair conflicts without creating anything. -/
theorem C8_single_pending_per_pair_witness :
    (requestBook stateRace "u-1" "X" 50 = (stateRace, .error .duplicatePending)) ∧
    (newReqC8.status = "pending" ∧ newReqC8 ∈ stateC8after.borrowings ∧
      atMostOnePendingPer stateC8after.borrowings ∧
      requestBook stateC8after "u-1" "X" 60 =
        (stateC8after, .error .duplicatePending)) :=
  ⟨(C8_single_pending_per_pair stateRace "u-1" "X" 50 60 memberJean
      (BookDoc.toBook bookDocX)
      (by simp [atMostOnePendingPer, stateRace, requestA, requestB,
        List.pairwise_cons])
      (by decide) (by decide) (by decide)).1 (by decide),
   (C8_single_pending_per_pair stateC8 "u-1" "X" 50 60 memberJean
      (BookDoc.toBook bookDocX)
      (by simp [atMostOnePendingPer, stateC8])
      (by decide) (by decide) (by decide)).2 stateC8after newReqC8 (by decide)⟩

end LibraryArchi

namespace LibraryArchi

theorem notify_single (f : ObsHandler) (ty : String) (p : EventPayload)
    (s : LibState) :
    notify [(ty, [observerWrap f])] ty p s = ((f p s).1, none) := by
  simp [notify, lookupObservers, observerWrap, List.find?_cons]

theorem bookAvailableUpdate_foldl (ws : List WatchEntry) (s : LibState)
    (bid : Option String) (title : String) :
    ws.foldl
      (fun st w =>
        (createNotification st "BOOK_AVAILABLE"
          ("Le livre " ++ title ++ " est maintenant disponible")
          w.userId bid none).1)
      s =
    { s with
      notifications := s.notifications ++
        bookAvailableNotifs ws s.nextId bid title
      nextId := s.nextId + ws.length } := by
  induction ws generalizing s with
  | nil => simp [bookAvailableNotifs]
  | cons w rest ih =>
    simp only [List.foldl_cons, List.length_cons]
    rw [ih]
    simp [createNotification, bookAvailableNotifs, List.append_assoc,
      LibState.mk.injEq]
    omega

theorem bookAvailableNotifs_map (ws : List WatchEntry) (n : Nat)
    (bid : Option String) (t : String) :
    (bookAvailableNotifs ws n bid t).map (fun x => (x.type, x.userId, x.bookId)) =
      ws.map (fun w => ("BOOK_AVAILABLE", w.userId, bid)) := by
  induction ws generalizing n with
  | nil => rfl
  | cons w rest ih => simp [bookAvailableNotifs, ih]

/-- Claim C5: when a return transitions an item's availability from 0 to
positive, a single BOOK_AVAILABLE dispatch carrying the full watcher list of
the item goes through the notification subject, the BookAvailableObserver
creates one notification record per watcher, and all the item's watchlist
entries are then deleted as one batch; in particular a borrower watching the
item gets a BOOK_AVAILABLE notification and loses the watchlist entry.
(Flow assembled per the spec, see the returnItem and onRestock doc
comments.) -/
theorem C5_restock_notifies_watchers (s : LibState) (requestId : String)
    (now : Int) (request : Borrowing) (book : Book)
    (hreq : findRequestById s.borrowings requestId = some request)
    (hst : request.status = "approved")
    (hbook : findBookById s.books request.bookId = some book)
    (h0 : book.availableQuantity = 0)
    (htot : 0 < book.totalQuantity) :
    returnItem s requestId now =
      ({ s with
          borrowings := setRequestReturned s.borrowings requestId now
          books := writeBackQuantities s.books request.bookId
            { book with
              availableQuantity := book.availableQuantity + 1
              isAvailable := decide (0 < book.availableQuantity + 1) }
          dispatched := s.dispatched ++
            [("BOOK_AVAILABLE",
              { EventPayload.empty with
                bookId := some request.bookId
                bookTitle := some book.title
                watchers := getBookWatchers s.watchlist request.bookId })]
          notifications := s.notifications ++
            bookAvailableNotifs (getBookWatchers s.watchlist request.bookId)
              s.nextId (some request.bookId) book.title
          nextId := s.nextId +
            (getBookWatchers s.watchlist request.bookId).length
          watchlist := clearBookWatchers s.watchlist request.bookId },
        .ok (match request.dueDate with
          | some d => decide (now > d)
          | none => false)) ∧
    ((bookAvailableNotifs (getBookWatchers s.watchlist request.bookId)
        s.nextId (some request.bookId) book.title).map
      (fun x => (x.type, x.userId, x.bookId)) =
      (getBookWatchers s.watchlist request.bookId).map
        (fun w => ("BOOK_AVAILABLE", w.userId, some request.bookId))) ∧
    (∀ e ∈ s.watchlist, e.bookId = request.bookId →
      ("BOOK_AVAILABLE", e.userId, some request.bookId) ∈
        ((bookAvailableNotifs (getBookWatchers s.watchlist request.bookId)
          s.nextId (some request.bookId) book.title).map
          (fun x => (x.type, x.userId, x.bookId))) ∧
      e ∉ clearBookWatchers s.watchlist request.bookId) := by
  have hnge : ¬ (book.availableQuantity ≥ book.totalQuantity) := by omega
  have hok : book.markAsAvailable =
      .ok ({ book with
          availableQuantity := book.availableQuantity + 1
          isAvailable := decide (0 < book.availableQuantity + 1) }, none) := by
    simp [Book.markAsAvailable, hnge]
  refine ⟨?_, ?_, ?_⟩
  · simp [returnItem, hreq, hst, hbook, hok, h0, onRestock, restockRegistry,
      notify_single, bookAvailableUpdate, bookAvailableUpdate_foldl,
      LibState.mk.injEq]
  · exact bookAvailableNotifs_map _ _ _ _
  · intro e he heq
    constructor
    · rw [bookAvailableNotifs_map]
      exact List.mem_map_of_mem _
        (List.mem_filter.mpr ⟨he, by simp [heq]⟩)
    · intro hmem
      simp [clearBookWatchers, List.mem_filter, heq] at hmem

end LibraryArchi

namespace LibraryArchi

/-- Witness for C5: returning Jean's approved loan of the exhausted X
notifies the watcher Paul and clears his watchlist entry. -/
theorem C5_restock_notifies_watchers_witness :
    returnItem stateC5 "A" 40 =
      ({ stateC5 with
          borrowings := setRequestReturned stateC5.borrowings "A" 40
          books := writeBackQuantities stateC5.books requestApprovedA.bookId
            { (BookDoc.toBook bookDocXEmpty) with
              availableQuantity :=
                (BookDoc.toBook bookDocXEmpty).availableQuantity + 1
              isAvailable :=
                decide (0 < (BookDoc.toBook bookDocXEmpty).availableQuantity + 1) }
          dispatched := stateC5.dispatched ++
            [("BOOK_AVAILABLE",
              { EventPayload.empty with
                bookId := some requestApprovedA.bookId
                bookTitle := some (BookDoc.toBook bookDocXEmpty).title
                watchers :=
                  getBookWatchers stateC5.watchlist requestApprovedA.bookId })]
          notifications := stateC5.notifications ++
            bookAvailableNotifs
              (getBookWatchers stateC5.watchlist requestApprovedA.bookId)
              stateC5.nextId (some requestApprovedA.bookId)
              (BookDoc.toBook bookDocXEmpty).title
          nextId := stateC5.nextId +
            (getBookWatchers stateC5.watchlist requestApprovedA.bookId).length
          watchlist := clearBookWatchers stateC5.watchlist requestApprovedA.bookId },
        .ok (match requestApprovedA.dueDate with
          | some d => decide ((40 : Int) > d)
          | none => false)) :=
  (C5_restock_notifies_watchers stateC5 "A" 40 requestApprovedA
    (BookDoc.toBook bookDocXEmpty) (by decide) (by decide) (by decide)
    (by decide) (by decide)).1

theorem newRequestUpdate_foldl (ls : List User) (s : LibState) (un bt : String)
    (bid rid : Option String) :
    ls.foldl
      (fun st lib =>
        (createNotification st "NEW_REQUEST"
          ("Nouvelle demande de " ++ un ++ " pour " ++ bt)
          lib.id bid rid).1)
      s =
    { s with
      notifications := s.notifications ++
        newRequestNotifs ls s.nextId un bt bid rid
      nextId := s.nextId + ls.length } := by
  induction ls generalizing s with
  | nil => simp [newRequestNotifs]
  | cons u rest ih =>
    simp only [List.foldl_cons, List.length_cons]
    rw [ih]
    simp [createNotification, newRequestNotifs, List.append_assoc,
      LibState.mk.injEq]
    omega

theorem newRequestNotifs_map (ls : List User) (n : Nat) (un bt : String)
    (bid rid : Option String) :
    (newRequestNotifs ls n un bt bid rid).map (fun x => (x.type, x.userId)) =
      ls.map (fun u => ("NEW_REQUEST", u.id)) := by
  induction ls generalizing n with
  | nil => rfl
  | cons u rest ih => simp [newRequestNotifs, ih]

/-- Claim C10: every successful createRequest creates the new request in
pending status and emits exactly one NEW_REQUEST event through the
notification subject, whose payload carries the requester (id and name), the
item (id and title) and the caller-supplied staff recipient set; the
NewRequestObserver then creates one notification record per staff member.
(Emission glue per the spec, see the requestBookWithNotify doc comment;
checks and creation are the src requestBook.) -/
theorem C10_new_request_event (s : LibState) (userId bookId : String)
    (now : Int) (staff : List User) (user : User) (book : Book)
    (huser : findUserById s.users userId = some user)
    (hbook : findBookById s.books bookId = some book)
    (hav : book.isAvailable = true)
    (hnp : hasPendingRequestForBook s.borrowings userId bookId = false) :
    requestBookWithNotify s userId bookId now staff =
      ({ s with
          borrowings := s.borrowings ++
            [{ id := genId s.nextId, userId := userId, bookId := bookId,
               requestDate := now, status := "pending", approvalDate := none,
               dueDate := none, returnDate := none }]
          dispatched := s.dispatched ++
            [("NEW_REQUEST",
              { EventPayload.empty with
                requestId := some (genId s.nextId)
                userId := some userId
                userName := some user.name
                bookId := some bookId
                bookTitle := some book.title
                librarians := staff })]
          notifications := s.notifications ++
            newRequestNotifs staff (s.nextId + 1) user.name book.title
              (some bookId) (some (genId s.nextId))
          nextId := s.nextId + 1 + staff.length },
        .ok { id := genId s.nextId, userId := userId, bookId := bookId,
              requestDate := now, status := "pending", approvalDate := none,
              dueDate := none, returnDate := none }) ∧
    ((newRequestNotifs staff (s.nextId + 1) user.name book.title
        (some bookId) (some (genId s.nextId))).map
      (fun x => (x.type, x.userId)) =
      staff.map (fun u => ("NEW_REQUEST", u.id))) := by
  constructor
  · simp [requestBookWithNotify, requestBook, huser, hbook, hav, hnp,
      newRequestRegistry, notify_single, newRequestUpdate,
      newRequestUpdate_foldl, LibState.mk.injEq]
  · exact newRequestNotifs_map _ _ _ _ _ _

/-- Witness for C10: Jean requests the available X with Marie as the staff
recipient set; the request is created pending, one NEW_REQUEST dispatch is
logged and Marie gets one notification. -/
theorem C10_new_request_event_witness :
    requestBookWithNotify stateC8 "u-1" "X" 50 [librarianMarie] =
      ({ stateC8 with
          borrowings := stateC8.borrowings ++
            [{ id := genId stateC8.nextId, userId := "u-1", bookId := "X",
               requestDate := 50, status := "pending", approvalDate := none,
               dueDate := none, returnDate := none }]
          dispatched := stateC8.dispatched ++
            [("NEW_REQUEST",
              { EventPayload.empty with
                requestId := some (genId stateC8.nextId)
                userId := some "u-1"
                userName := some memberJean.name
                bookId := some "X"
                bookTitle := some (BookDoc.toBook bookDocX).title
                librarians := [librarianMarie] })]
          notifications := stateC8.notifications ++
            newRequestNotifs [librarianMarie] (stateC8.nextId + 1)
              memberJean.name (BookDoc.toBook bookDocX).title
              (some "X") (some (genId stateC8.nextId))
          nextId := stateC8.nextId + 1 + [librarianMarie].length },
        .ok { id := genId stateC8.nextId, userId := "u-1", bookId := "X",
              requestDate := 50, status := "pending", approvalDate := none,
              dueDate := none, returnDate := none }) :=
  (C10_new_request_event stateC8 "u-1" "X" 50 [librarianMarie] memberJean
    (BookDoc.toBook bookDocX) (by decide) (by decide) (by decide)
    (by decide)).1

end LibraryArchi
